import Mathlib

/-
Verification of the glTF packing script (src/scripts/pack_gltf.py).

The script reads a glTF JSON document plus its raw buffer file(s) and
serializes a fixed subset (one mesh/primitive, node hierarchy, one
animation, first skin) into headerless little-endian binary files.

Shallow embedding conventions:
* JSON numbers used as indices/counts are `Nat`; transform components
  (translation/rotation/scale entries) are `Rat`, since the script never
  computes with them, only copies them into `struct.pack('<f', ...)`.
* `struct.pack('<f', v)` and `struct.pack('<I', n)` are modelled as the
  symbolic chunks `Chunk.f32 v` and `Chunk.u32 n`, each standing for the
  4 little-endian bytes of the IEEE-754 binary32 value / 32-bit unsigned
  integer (values are < 2^32 in every run the script completes, since
  `struct.pack` raises otherwise).
* Bytes copied verbatim from a buffer file appear as `Chunk.raw bs`.
* An output file is a name paired with the list of chunks actually
  written to it before the run ended; Python's `with open(...)` creates
  the file on `open` and flushes written bytes on close even when an
  exception propagates, so a file aborted mid-write is present with the
  chunks written so far.
* Python exceptions are modelled by `PErr`, named after the spec's error
  taxonomy: the `assert componentType/type` failures are `TypeMismatch`;
  `struct.pack('<I', None)` after an unrecognized animation path is
  `UnsupportedAnimationPath`; the `assert len(...) == 1` failures and the
  KeyError/IndexError on a missing or empty `skins` collection are
  `StructuralViolation`; a missing/unreadable buffer file is `IOFailure`;
  any other out-of-range list access is `lookup`.
-/

namespace PackGltf

/-- Bytes of a raw buffer file are modelled as natural numbers (0..255). -/
abbrev Byte := Nat

/-- Failure modes of the script, named after the spec's error taxonomy. -/
inductive PErr where
  | typeMismatch
  | unsupportedAnimationPath
  | structuralViolation
  | ioFailure
  | lookup
  deriving DecidableEq

/-- A chunk of output: `struct.pack('<f', v)`, `struct.pack('<I', n)`, or a
verbatim copy of bytes read from a buffer file. -/
inductive Chunk where
  | f32 (v : Rat)
  | u32 (n : Nat)
  | raw (bs : List Byte)
  deriving DecidableEq

/-- Number of bytes a chunk occupies in the output file. -/
def Chunk.byteLen : Chunk → Nat
  | .f32 _ => 4
  | .u32 _ => 4
  | .raw bs => bs.length

/-- One entry of gltf["buffers"]: the `uri` names the sibling file; `data` is
that file's content, `none` when the file is missing or unreadable
(`open(uri, "rb")` raises, spec taxonomy `IOFailure`). -/
structure BufferObj where
  uri : String
  data : Option (List Byte)
  deriving DecidableEq

/-- One entry of gltf["bufferViews"]: fields read by the script via
`buffer_view["buffer"]`, `buffer_view["byteOffset"]`, `buffer_view["byteLength"]`. -/
structure BufferView where
  buffer : Nat
  byteOffset : Nat
  byteLength : Nat
  deriving DecidableEq

/-- One entry of gltf["accessors"]. The script reads `componentType`, `type`,
`bufferView`, and (for animation time accessors) `count`. The accessor-level
`byteOffset` field exists in the interchange format but is never read by the
script; it is included so that ignoring it is a provable statement. -/
structure Accessor where
  bufferView : Nat
  byteOffset : Nat
  componentType : Nat
  type : String
  count : Nat
  deriving DecidableEq

/-- One entry of gltf["nodes"]: the script reads every field with
`node.get(key, default)`, so absent fields are `none` and the default is
substituted at the use site. -/
structure Node where
  translation : Option (List Rat)
  rotation : Option (List Rat)
  scale : Option (List Rat)
  children : Option (List Nat)
  deriving DecidableEq

/-- channel["target"]: the animated node index and the path string. -/
structure Target where
  node : Nat
  path : String
  deriving DecidableEq

/-- One animation channel: its target and the sampler index. -/
structure Channel where
  target : Target
  sampler : Nat
  deriving DecidableEq

/-- One animation sampler: `input` is the time accessor index, `output` the
value accessor index. -/
structure Sampler where
  input : Nat
  output : Nat
  deriving DecidableEq

/-- One entry of gltf["animations"]. -/
structure Animation where
  channels : List Channel
  samplers : List Sampler
  deriving DecidableEq

/-- One entry of gltf["skins"]: joint node indices and the
inverse-bind-matrices accessor index. -/
structure Skin where
  joints : List Nat
  inverseBindMatrices : Nat
  deriving DecidableEq

/-- The primitive attribute dictionary entries the script reads. -/
structure Attributes where
  POSITION : Nat
  NORMAL : Nat
  JOINTS_0 : Nat
  WEIGHTS_0 : Nat
  deriving DecidableEq

/-- One mesh primitive: attribute accessors and the index accessor. -/
structure Primitive where
  attributes : Attributes
  indices : Nat
  deriving DecidableEq

/-- One entry of gltf["meshes"]. -/
structure Mesh where
  primitives : List Primitive
  deriving DecidableEq

/-- The loaded glTF document. `skins` is an `Option` because
`gltf["skins"]` raises KeyError when the key is absent; the other
collections are accessed the same way but no claim depends on their
absence, so they are plain lists. -/
structure Gltf where
  accessors : List Accessor
  bufferViews : List BufferView
  buffers : List BufferObj
  meshes : List Mesh
  nodes : List Node
  animations : List Animation
  skins : Option (List Skin)
  deriving DecidableEq

/-- Embedding of `dump_accessor_to_f` up to the bytes it appends to the open
output file. Mirrors the source order: the two `assert`s on `componentType`
and `type` run first (spec taxonomy `TypeMismatch`, before any buffer read),
then the bufferView/buffer lookups, then
`in_file.seek(offs); in_file.read(length)`, which returns the bytes of the
file from `offs` up to at most `length` of them (fewer when the file is
short — Python `read` never fails on a short file). -/
def dump_accessor_to_f (gltf : Gltf) (accessor_idx : Nat)
    (expected_component_type : Nat) (expected_type : String) :
    Except PErr (List Byte) :=
  match gltf.accessors.get? accessor_idx with
  | none => Except.error PErr.lookup
  | some acc =>
    if acc.componentType = expected_component_type then
      if acc.type = expected_type then
        match gltf.bufferViews.get? acc.bufferView with
        | none => Except.error PErr.lookup
        | some bv =>
          match gltf.buffers.get? bv.buffer with
          | none => Except.error PErr.lookup
          | some buf =>
            match buf.data with
            | none => Except.error PErr.ioFailure
            | some bs => Except.ok ((bs.drop bv.byteOffset).take bv.byteLength)
      else Except.error PErr.typeMismatch
    else Except.error PErr.typeMismatch

/-- Embedding of `dump_accessor`: `open(path, "wb")` creates (truncates) the
output file first, then `dump_accessor_to_f` runs; on failure the file is
left on disk with whatever was written (here: nothing). Returns the file as
written plus the error, if any. -/
def dump_accessor (gltf : Gltf) (accessor_idx : Nat) (path : String)
    (expected_component_type : Nat) (expected_type : String) :
    (String × List Chunk) × Option PErr :=
  match dump_accessor_to_f gltf accessor_idx expected_component_type expected_type with
  | Except.ok bs => ((path, [Chunk.raw bs]), none)
  | Except.error e => ((path, []), some e)

/-- Embedding of `animationTypeVal`: Python falls off the end and returns
`None` for any other string, modelled as `none`. -/
def animationTypeVal (s : String) : Option Nat :=
  if s = "translation" then some 0
  else if s = "rotation" then some 1
  else if s = "scale" then some 2
  else none

/-- The "no parent" sentinel `0xffffffff` used by the hierarchy builder. -/
def SENTINEL : Nat := 0xffffffff

/-- Python list assignment `l[i] = v` for a list of naturals: succeeds exactly
when `i < len(l)` (child indices are non-negative in the interchange format),
raising IndexError otherwise. -/
def setAt (l : List Nat) (i v : Nat) : Option (List Nat) :=
  if i < l.length then some (l.set i v) else none

/-- Applies a sequence of `parents[child] = i` writes in order, stopping at
the first out-of-range index, as the Python loop does. -/
def applyWrites : List (Nat × Nat) → List Nat → Option (List Nat)
  | [], l => some l
  | w :: ws, l =>
    match setAt l w.1 w.2 with
    | none => none
    | some l2 => applyWrites ws l2

/-- The sequence of `(child, i)` writes performed by the nested loop
`for i, node in enumerate(nodes): for child in node.get("children", []):`,
starting the enumeration at index `k`. -/
def writeSeqFrom : Nat → List Node → List (Nat × Nat)
  | _, [] => []
  | k, nd :: rest => ((nd.children.getD []).map fun c => (c, k)) ++ writeSeqFrom (k + 1) rest

/-- The full write sequence of the hierarchy-building loop. -/
def writeSeq (nodes : List Node) : List (Nat × Nat) :=
  writeSeqFrom 0 nodes

/-- Embedding of the hierarchy-building loop:
`parents = [0xffffffff] * len(nodes)` followed by the nested child loop.
`none` models an IndexError on an out-of-range child index. -/
def buildParents (nodes : List Node) : Option (List Nat) :=
  applyWrites (writeSeq nodes) (List.replicate nodes.length SENTINEL)

/-- The chunks written to nodes.bin for one node: translation
(default [0,0,0]), rotation (default [0,0,0,1]), scale (default [1,1,1]),
each value packed as a float32, then the parent index packed as a uint32.
`struct.pack('<' + 'f'*len(xs), *xs)` packs however many entries `xs` has. -/
def nodeRecord (node : Node) (parent : Nat) : List Chunk :=
  ((node.translation.getD [0, 0, 0]).map Chunk.f32)
    ++ ((node.rotation.getD [0, 0, 0, 1]).map Chunk.f32)
    ++ ((node.scale.getD [1, 1, 1]).map Chunk.f32)
    ++ [Chunk.u32 parent]

/-- The nodes.bin records for the nodes starting at index `k`, reading each
node's parent from `parents` (the Python loop indexes `parents[i]` with
`i < len(nodes) = len(parents)`, so the `getD` default is never used in a
run of the script). -/
def nodesBinFrom (parents : List Nat) : Nat → List Node → List Chunk
  | _, [] => []
  | k, nd :: rest => nodeRecord nd (parents.getD k 0) ++ nodesBinFrom parents (k + 1) rest

/-- The full content of nodes.bin: one record per node in source order. -/
def nodesBinChunks (nodes : List Node) (parents : List Nat) : List Chunk :=
  nodesBinFrom parents 0 nodes

/-- Sequences one `dump_accessor` call before the rest of the mesh stage:
on failure only the just-created (empty) file exists and the error
propagates; on success the file is followed by the remaining ones. -/
def thenFile (r : (String × List Chunk) × Option PErr)
    (rest : List (String × List Chunk) × Option PErr) :
    List (String × List Chunk) × Option PErr :=
  match r.2 with
  | some e => ([r.1], some e)
  | none => (r.1 :: rest.1, rest.2)

/-- Embedding of the mesh-extraction part of `main`: the
`assert len(meshes) == 1` and `assert len(primitives) == 1` checks (spec
taxonomy `StructuralViolation`), then the five `dump_accessor` calls in
source order with the expected component types 5126 = float32,
5123 = uint16, 5121 = uint8. -/
def meshStage (gltf : Gltf) : List (String × List Chunk) × Option PErr :=
  match gltf.meshes with
  | [mesh] =>
    match mesh.primitives with
    | [prim] =>
      thenFile (dump_accessor gltf prim.attributes.POSITION "positions.bin" 5126 "VEC3")
        (thenFile (dump_accessor gltf prim.attributes.NORMAL "normals.bin" 5126 "VEC3")
          (thenFile (dump_accessor gltf prim.indices "indices.bin" 5123 "SCALAR")
            (thenFile (dump_accessor gltf prim.attributes.JOINTS_0 "vert_joints.bin" 5121 "VEC4")
              (thenFile (dump_accessor gltf prim.attributes.WEIGHTS_0 "vert_weights.bin" 5126 "VEC4")
                ([], none)))))
    | _ => ([], some PErr.structuralViolation)
  | _ => ([], some PErr.structuralViolation)

/-- Embedding of the node-hierarchy part of `main`: the parents loop runs
before `open("nodes.bin", "wb")`, so an IndexError on an out-of-range child
leaves no nodes.bin; otherwise the full record list is written. -/
def nodeStage (gltf : Gltf) : List (String × List Chunk) × Option PErr :=
  match buildParents gltf.nodes with
  | none => ([], some PErr.lookup)
  | some parents => ([("nodes.bin", nodesBinChunks gltf.nodes parents)], none)

/-- Embedding of the body of the per-channel loop in `main`, up to the chunks
written to the already-open `animations_<i>.bin` file. Mirrors the source
order: target node index, then the path enum (`struct.pack('<I', None)`
raises when `animationTypeVal` returned `None` — spec taxonomy
`UnsupportedAnimationPath` — with the node index already written), then the
sampler lookup, the keyframe count from the time accessor's `count`, the
time-accessor bytes (float32 SCALAR), and the value-accessor bytes
(float32, VEC4 for a rotation path and VEC3 otherwise). -/
def packChannel (gltf : Gltf) (anim : Animation) (channel : Channel) :
    List Chunk × Option PErr :=
  let c1 := [Chunk.u32 channel.target.node]
  match animationTypeVal channel.target.path with
  | none => (c1, some PErr.unsupportedAnimationPath)
  | some pv =>
    let c2 := c1 ++ [Chunk.u32 pv]
    match anim.samplers.get? channel.sampler with
    | none => (c2, some PErr.lookup)
    | some smp =>
      match gltf.accessors.get? smp.input with
      | none => (c2, some PErr.lookup)
      | some tacc =>
        let c3 := c2 ++ [Chunk.u32 tacc.count]
        match dump_accessor_to_f gltf smp.input 5126 "SCALAR" with
        | Except.error e => (c3, some e)
        | Except.ok tb =>
          let c4 := c3 ++ [Chunk.raw tb]
          match dump_accessor_to_f gltf smp.output 5126
              (if channel.target.path = "rotation" then "VEC4" else "VEC3") with
          | Except.error e => (c4, some e)
          | Except.ok vb => (c4 ++ [Chunk.raw vb], none)

/-- The per-channel loop of `main` starting at channel index `k`: each
iteration creates `animations_<k>.bin` and fills it via `packChannel`; on
failure the partially written file is left and the loop aborts. -/
def packChannelsFrom (gltf : Gltf) (anim : Animation) :
    Nat → List Channel → List (String × List Chunk) × Option PErr
  | _, [] => ([], none)
  | k, ch :: rest =>
    match packChannel gltf anim ch with
    | (cs, some e) => ([("animations_" ++ toString k ++ ".bin", cs)], some e)
    | (cs, none) =>
      (("animations_" ++ toString k ++ ".bin", cs)
          :: (packChannelsFrom gltf anim (k + 1) rest).1,
        (packChannelsFrom gltf anim (k + 1) rest).2)

/-- Embedding of the animation part of `main`: the
`assert len(animations) == 1` check (spec taxonomy `StructuralViolation`)
and then the per-channel loop over the single animation. -/
def animStage (gltf : Gltf) : List (String × List Chunk) × Option PErr :=
  match gltf.animations with
  | [anim] => packChannelsFrom gltf anim 0 anim.channels
  | _ => ([], some PErr.structuralViolation)

/-- Embedding of the skin part of `main`. `skins = gltf["skins"]` runs before
`open("joint_info.bin", "wb")`, so a missing `skins` key (KeyError, spec
taxonomy `StructuralViolation`) leaves no file; `skins[0]` on an empty list
(IndexError, same taxonomy entry) leaves the just-created empty file. On the
happy path the file holds the joint count, the joint indices in declared
order, and the raw inverse-bind-matrix bytes validated as float32 MAT4 —
all taken from the first skin only. -/
def skinStage (gltf : Gltf) : List (String × List Chunk) × Option PErr :=
  match gltf.skins with
  | none => ([], some PErr.structuralViolation)
  | some skins =>
    match skins with
    | [] => ([("joint_info.bin", [])], some PErr.structuralViolation)
    | skin :: _ =>
      let c1 := Chunk.u32 skin.joints.length :: skin.joints.map Chunk.u32
      match dump_accessor_to_f gltf skin.inverseBindMatrices 5126 "MAT4" with
      | Except.error e => ([("joint_info.bin", c1)], some e)
      | Except.ok bs => ([("joint_info.bin", c1 ++ [Chunk.raw bs])], none)

/-- Sequences two pipeline stages: a failing first stage aborts the run, but
its files (and those of every earlier stage) stay on disk untouched — the
script has no cleanup or rollback path. -/
def seqStage (r1 r2 : List (String × List Chunk) × Option PErr) :
    List (String × List Chunk) × Option PErr :=
  match r1.2 with
  | some e => (r1.1, some e)
  | none => (r1.1 ++ r2.1, r2.2)

/-- Embedding of `main` (after the chdir/JSON-load glue): the four stages in
source order, each stopping the run on its first error while keeping every
file written so far. The result is the list of files on disk at the end of
the run (name and content, in creation order) and the error, if any. -/
def runMain (gltf : Gltf) : List (String × List Chunk) × Option PErr :=
  seqStage (meshStage gltf)
    (seqStage (nodeStage gltf)
      (seqStage (animStage gltf) (skinStage gltf)))

/-! Helper notions and lemmas about the hierarchy-building write sequence. -/

/-- The value of the last `(i, v)` write to slot `i` in a write sequence,
`none` when no write targets `i`. Later writes take precedence. -/
def lastVal : List (Nat × Nat) → Nat → Option Nat
  | [], _ => none
  | w :: ws, i =>
    match lastVal ws i with
    | some v => some v
    | none => if w.1 = i then some w.2 else none

/-- Restatement, following the spec's wording, of one nodes.bin record: the
defaulted translation ‖ rotation ‖ scale values packed as float32s followed
by the parent index packed as a uint32, with the defaulting table
{translation→[0,0,0], rotation→[0,0,0,1], scale→[1,1,1]}. Used to compare
`nodeRecord` (from the source) against the spec's description. -/
def specNodeRecord (node : Node) (parent : Nat) : List Chunk :=
  ((node.translation.getD [0, 0, 0] ++ node.rotation.getD [0, 0, 0, 1]
      ++ node.scale.getD [1, 1, 1]).map Chunk.f32) ++ [Chunk.u32 parent]

/-! Concrete documents used as counterexamples and witnesses. -/

/-- A document whose POSITION accessor declares componentType 5123 (uint16)
where the extractor expects 5126 (float32). -/
def exG1 : Gltf :=
  { accessors := [⟨0, 0, 5123, "VEC3", 1⟩],
    bufferViews := [⟨0, 0, 2⟩],
    buffers := [⟨"b.bin", some [1, 2, 3]⟩],
    meshes := [⟨[⟨⟨0, 0, 0, 0⟩, 0⟩]⟩],
    nodes := [],
    animations := [],
    skins := none }

/-- A node array in which nodes 0 and 1 both list node 2 as a child. -/
def exDupNodes : List Node :=
  [⟨none, none, none, some [2]⟩, ⟨none, none, none, some [2]⟩,
    ⟨none, none, none, none⟩]

/-- The spec's 3-node tree root→A→B: node 0 has children [1], node 1 has
children [2], node 2 has none; no explicit transforms. -/
def exTreeNodes : List Node :=
  [⟨none, none, none, some [1]⟩, ⟨none, none, none, some [2]⟩,
    ⟨none, none, none, none⟩]

/-- A document that passes the mesh and node stages and reaches its single
animation, whose only channel targets node 5 with the unsupported path
string "spin". -/
def exG3 : Gltf :=
  { accessors :=
      [⟨0, 0, 5126, "VEC3", 1⟩, ⟨0, 0, 5123, "SCALAR", 1⟩,
        ⟨0, 0, 5121, "VEC4", 1⟩, ⟨0, 0, 5126, "VEC4", 1⟩],
    bufferViews := [⟨0, 0, 2⟩],
    buffers := [⟨"b.bin", some [9, 8]⟩],
    meshes := [⟨[⟨⟨0, 0, 2, 3⟩, 1⟩]⟩],
    nodes := [],
    animations := [⟨[⟨⟨5, "spin"⟩, 0⟩], [⟨0, 0⟩]⟩],
    skins := none }

/-- A document whose accessor 0 is declared float32 VEC3 over a bufferView
of byteLength 4, while the backing buffer file holds only 2 bytes. -/
def exG5 : Gltf :=
  { accessors := [⟨0, 0, 5126, "VEC3", 1⟩],
    bufferViews := [⟨0, 0, 4⟩],
    buffers := [⟨"b.bin", some [7, 7]⟩],
    meshes := [],
    nodes := [],
    animations := [],
    skins := none }

/-- A document whose accessors 0 and 1 agree on every field the script reads
and differ only in the accessor-level byteOffset (0 versus 12). -/
def exG9 : Gltf :=
  { accessors := [⟨0, 0, 5126, "VEC3", 1⟩, ⟨0, 12, 5126, "VEC3", 1⟩],
    bufferViews := [⟨0, 0, 2⟩],
    buffers := [⟨"b.bin", some [1, 2, 3, 4]⟩],
    meshes := [],
    nodes := [],
    animations := [],
    skins := none }

/-- A document on which the whole run succeeds: one mesh/primitive, the
3-node tree, one animation with a single translation channel, one skin
with joints [5, 7]. -/
def exGood : Gltf :=
  { accessors :=
      [⟨0, 0, 5126, "VEC3", 1⟩, ⟨0, 0, 5123, "SCALAR", 1⟩,
        ⟨0, 0, 5121, "VEC4", 1⟩, ⟨0, 0, 5126, "VEC4", 1⟩,
        ⟨0, 0, 5126, "SCALAR", 2⟩, ⟨0, 0, 5126, "VEC3", 2⟩,
        ⟨0, 0, 5126, "MAT4", 1⟩],
    bufferViews := [⟨0, 0, 2⟩],
    buffers := [⟨"b.bin", some [9, 8]⟩],
    meshes := [⟨[⟨⟨0, 0, 2, 3⟩, 1⟩]⟩],
    nodes := exTreeNodes,
    animations := [⟨[⟨⟨0, "translation"⟩, 0⟩], [⟨4, 5⟩]⟩],
    skins := some [⟨[5, 7], 6⟩] }

/-- `exGood` with the skins collection absent: the run fails only at the
skin stage. -/
def exGoodNoSkin : Gltf := { exGood with skins := none }

/-- `exGood` with a second skin appended. -/
def exGoodTwoSkins : Gltf :=
  { exGood with skins := some [⟨[5, 7], 6⟩, ⟨[1], 6⟩] }

theorem setAt_some {l : List Nat} {i v : Nat} {l2 : List Nat}
    (h : setAt l i v = some l2) : i < l.length ∧ l2 = l.set i v := by
  unfold setAt at h
  split at h
  · exact ⟨by assumption, (Option.some.inj h).symm⟩
  · exact absurd h (by simp)

theorem applyWrites_length :
    ∀ (ws : List (Nat × Nat)) (l l2 : List Nat),
      applyWrites ws l = some l2 → l2.length = l.length := by
  intro ws
  induction ws with
  | nil =>
    intro l l2 h
    simp [applyWrites] at h
    rw [h]
  | cons w ws ih =>
    intro l l2 h
    unfold applyWrites at h
    cases hs : setAt l w.1 w.2 with
    | none => rw [hs] at h; exact absurd h (by simp)
    | some l1 =>
      rw [hs] at h
      obtain ⟨_, hl1⟩ := setAt_some hs
      have := ih l1 l2 h
      rw [this, hl1]
      simp

theorem applyWrites_getD :
    ∀ (ws : List (Nat × Nat)) (l l2 : List Nat),
      applyWrites ws l = some l2 → ∀ i, i < l.length →
        l2.getD i 0 = (lastVal ws i).getD (l.getD i 0) := by
  intro ws
  induction ws with
  | nil =>
    intro l l2 h i _
    simp [applyWrites] at h
    rw [h, lastVal]
    simp
  | cons w ws ih =>
    intro l l2 h i hi
    unfold applyWrites at h
    cases hs : setAt l w.1 w.2 with
    | none => rw [hs] at h; exact absurd h (by simp)
    | some l1 =>
      rw [hs] at h
      obtain ⟨hw, hl1⟩ := setAt_some hs
      have hlen : l1.length = l.length := by rw [hl1]; simp
      have hIH := ih l1 l2 h i (by omega)
      rw [lastVal]
      cases hlast : lastVal ws i with
      | some v => rw [hlast] at hIH; simpa using hIH
      | none =>
        rw [hlast] at hIH
        simp only [Option.getD_none] at hIH
        show l2.getD i 0 = (if w.1 = i then some w.2 else none).getD (l.getD i 0)
        rw [hIH, hl1]
        by_cases hc : w.1 = i
        · subst hc
          simp [List.getD, List.get?_eq_getElem?, List.getElem?_set_eq_of_lt, hw]
        · simp [List.getD, List.get?_eq_getElem?, List.getElem?_set_ne, hc]

theorem applyWrites_total :
    ∀ (ws : List (Nat × Nat)) (l : List Nat),
      (∀ w ∈ ws, w.1 < l.length) → ∃ l2, applyWrites ws l = some l2 := by
  intro ws
  induction ws with
  | nil => intro l _; exact ⟨l, rfl⟩
  | cons w ws ih =>
    intro l hall
    have hw : w.1 < l.length := hall w (by simp)
    have hs : setAt l w.1 w.2 = some (l.set w.1 w.2) := by
      unfold setAt
      simp [hw]
    obtain ⟨l2, hl2⟩ := ih (l.set w.1 w.2)
      (fun v hv => by simpa using hall v (List.mem_cons_of_mem w hv))
    exact ⟨l2, by rw [applyWrites, hs]; exact hl2⟩

theorem lastVal_mem :
    ∀ (ws : List (Nat × Nat)) (i v : Nat), lastVal ws i = some v → (i, v) ∈ ws := by
  intro ws
  induction ws with
  | nil => intro i v h; simp [lastVal] at h
  | cons w ws ih =>
    intro i v h
    rw [lastVal] at h
    cases hlast : lastVal ws i with
    | some u =>
      rw [hlast] at h
      exact List.mem_cons_of_mem w (ih i v (by rw [hlast, ← h]))
    | none =>
      rw [hlast] at h
      by_cases hc : w.1 = i
      · simp [hc] at h
        have : w = (i, v) := by
          cases w
          simp at hc h ⊢
          exact ⟨hc, h⟩
        rw [← this]
        exact List.mem_cons_self w ws
      · simp [hc] at h

theorem writeSeqFrom_mem :
    ∀ (nodes : List Node) (k c j : Nat), (c, j) ∈ writeSeqFrom k nodes →
      ∃ nd, k ≤ j ∧ nodes.get? (j - k) = some nd ∧ c ∈ nd.children.getD [] := by
  intro nodes
  induction nodes with
  | nil => intro k c j h; simp [writeSeqFrom] at h
  | cons nd rest ih =>
    intro k c j h
    rw [writeSeqFrom] at h
    rcases List.mem_append.mp h with hin | hin
    · obtain ⟨c2, hc2, heq⟩ := List.mem_map.mp hin
      have hc : c2 = c := congrArg Prod.fst heq
      have hj : k = j := congrArg Prod.snd heq
      subst hc
      subst hj
      exact ⟨nd, le_refl k, by rw [Nat.sub_self]; rfl, hc2⟩
    · obtain ⟨nd2, hk, hget, hc⟩ := ih (k + 1) c j hin
      refine ⟨nd2, by omega, ?_, hc⟩
      have harith : j - k = (j - (k + 1)) + 1 := by omega
      rw [harith]
      simpa using hget

theorem writeSeqFrom_child_mem :
    ∀ (nodes : List Node) (k : Nat) (w : Nat × Nat), w ∈ writeSeqFrom k nodes →
      ∃ nd, nd ∈ nodes ∧ w.1 ∈ nd.children.getD [] := by
  intro nodes
  induction nodes with
  | nil => intro k w h; simp [writeSeqFrom] at h
  | cons nd rest ih =>
    intro k w h
    rw [writeSeqFrom] at h
    rcases List.mem_append.mp h with hin | hin
    · obtain ⟨c2, hc2, heq⟩ := List.mem_map.mp hin
      exact ⟨nd, List.mem_cons_self nd rest, by rw [← heq]; exact hc2⟩
    · obtain ⟨nd2, hmem, hc⟩ := ih (k + 1) w hin
      exact ⟨nd2, List.mem_cons_of_mem nd hmem, hc⟩

theorem packChannelsFrom_ok_get (gltf : Gltf) (anim : Animation) :
    ∀ (chs : List Channel) (k : Nat),
      (packChannelsFrom gltf anim k chs).2 = none →
      ∀ i ch, chs.get? i = some ch →
        (packChannelsFrom gltf anim k chs).1.get? i =
          some ("animations_" ++ toString (k + i) ++ ".bin",
            (packChannel gltf anim ch).1) := by
  intro chs
  induction chs with
  | nil => intro k _ i ch hch; simp at hch
  | cons c rest ih =>
    intro k hok i ch hch
    cases hr : packChannel gltf anim c with
    | mk cs e =>
      cases e with
      | some e2 =>
        rw [packChannelsFrom, hr] at hok
        exact absurd hok (by simp)
      | none =>
        rw [packChannelsFrom, hr] at hok ⊢
        cases i with
        | zero =>
          have hcc : c = ch := by simpa using hch
          subst hcc
          simp [hr]
        | succ m =>
          have hch2 : rest.get? m = some ch := by simpa using hch
          have hmain := ih (k + 1) hok m ch hch2
          have harith : k + 1 + m = k + (m + 1) := by omega
          rw [harith] at hmain
          simpa using hmain

theorem packChannelsFrom_append (gltf : Gltf) (anim : Animation) :
    ∀ (pre post : List Channel) (k : Nat),
      (packChannelsFrom gltf anim k pre).2 = none →
      packChannelsFrom gltf anim k (pre ++ post) =
        ((packChannelsFrom gltf anim k pre).1
            ++ (packChannelsFrom gltf anim (k + pre.length) post).1,
          (packChannelsFrom gltf anim (k + pre.length) post).2) := by
  intro pre
  induction pre with
  | nil =>
    intro post k _
    simp [packChannelsFrom]
  | cons c rest ih =>
    intro post k hok
    cases hr : packChannel gltf anim c with
    | mk cs e =>
      cases e with
      | some e2 =>
        rw [packChannelsFrom, hr] at hok
        exact absurd hok (by simp)
      | none =>
        rw [packChannelsFrom, hr] at hok
        have hIH := ih post (k + 1) hok
        rw [List.cons_append, packChannelsFrom, hr, hIH, packChannelsFrom, hr]
        have harith : k + 1 + rest.length = k + (c :: rest).length := by
          simp
          omega
        rw [harith]
        simp

/-! Claim theorems. -/

/-- C1 counterexample: on `exG1`, whose POSITION accessor declares
componentType 5123 where the extractor expects 5126, the run fails with
`TypeMismatch` — but an output file (the just-created, empty positions.bin)
IS left on disk, refuting the claim's "no output files are left on disk for
that run". -/
theorem C1_counterexample :
    runMain exG1 = ([("positions.bin", [])], some PErr.typeMismatch)
      ∧ (runMain exG1).1 ≠ [] := by
  have h : runMain exG1 = ([("positions.bin", [])], some PErr.typeMismatch) := rfl
  refine ⟨h, ?_⟩
  rw [h]
  simp

/-- C1 (amended): when the accessor's declared componentType or type differs
from the caller's expectation, `dump_accessor` fails with `TypeMismatch` and
no bytes are read from the backing buffer (the result is the same for every
buffer content and the output file receives no chunk) — but the just-opened
output file itself is left on disk, empty. -/
theorem C1_typeMismatch_no_read (gltf : Gltf) (idx : Nat) (path : String)
    (ect : Nat) (et : String) (acc : Accessor)
    (hacc : gltf.accessors.get? idx = some acc)
    (hmm : acc.componentType ≠ ect ∨ acc.type ≠ et) :
    dump_accessor gltf idx path ect et = ((path, []), some PErr.typeMismatch) := by
  unfold dump_accessor dump_accessor_to_f
  rw [hacc]
  rcases hmm with h | h
  · simp [h]
  · by_cases hct : acc.componentType = ect
    · simp [hct, h]
    · simp [hct]

/-- C1 witness: the amended statement evaluated on `exG1`. -/
theorem C1_witness :
    dump_accessor exG1 0 "positions.bin" 5126 "VEC3"
      = (("positions.bin", []), some PErr.typeMismatch) :=
  C1_typeMismatch_no_read exG1 0 "positions.bin" 5126 "VEC3"
    ⟨0, 0, 5123, "VEC3", 1⟩ (by rfl) (Or.inl (by decide))

/-- C2 counterexample: on `exDupNodes`, where nodes 0 and 1 both list node 2
as a child, the hierarchy builder does NOT fail: it succeeds and silently
takes the last writer, recording node 1 (not node 0) as the parent of
node 2. -/
theorem C2_counterexample :
    buildParents exDupNodes = some [SENTINEL, SENTINEL, 1] := by decide

/-- C2 (amended): the hierarchy builder performs no ambiguity check at all.
Whenever every listed child index is in range — duplicate listings
included — it succeeds, and each slot holds the LAST write to it (the last
node in array order that lists it as a child), or the sentinel when no node
lists it. -/
theorem C2_last_writer_wins (nodes : List Node)
    (hr : ∀ nd ∈ nodes, ∀ c ∈ nd.children.getD [], c < nodes.length) :
    ∃ ps, buildParents nodes = some ps ∧
      ∀ i, i < nodes.length →
        ps.getD i 0 = (lastVal (writeSeq nodes) i).getD SENTINEL := by
  have hall : ∀ w ∈ writeSeq nodes,
      w.1 < (List.replicate nodes.length SENTINEL).length := by
    intro w hw
    obtain ⟨nd, hnd, hc⟩ := writeSeqFrom_child_mem nodes 0 w hw
    simpa using hr nd hnd w.1 hc
  obtain ⟨ps, hps⟩ := applyWrites_total (writeSeq nodes) _ hall
  refine ⟨ps, hps, fun i hi => ?_⟩
  have hg := applyWrites_getD (writeSeq nodes) _ ps hps i (by simpa using hi)
  rw [hg]
  congr 1
  simp [List.getD, List.get?_eq_getElem?, List.getElem?_replicate, hi]

/-- C2 witness: the amended statement evaluated on `exDupNodes`. -/
theorem C2_witness :
    ∃ ps, buildParents exDupNodes = some ps ∧
      ∀ i, i < exDupNodes.length →
        ps.getD i 0 = (lastVal (writeSeq exDupNodes) i).getD SENTINEL :=
  C2_last_writer_wins exDupNodes (by decide)

/-- C5 counterexample: on `exG5` the bufferView declares byteLength 4 but
the backing buffer file holds only 2 bytes; the dump writes 2 bytes, not
the declared 4, refuting the claim's parenthetical "(including when the
backing buffer file holds fewer than byteOffset+byteLength bytes)". -/
theorem C5_counterexample :
    dump_accessor_to_f exG5 0 5126 "VEC3" = Except.ok [7, 7]
      ∧ exG5.bufferViews.get? 0 = some ⟨0, 0, 4⟩
      ∧ ([7, 7] : List Byte).length ≠ 4 :=
  ⟨rfl, rfl, by decide⟩

/-- C5 (amended): a successful accessor read writes
`min byteLength (bufferSize - byteOffset)` bytes — exactly the bufferView's
declared byteLength when the backing buffer holds at least
byteOffset+byteLength bytes, and fewer when the file is short. -/
theorem C5_read_length (gltf : Gltf) (idx : Nat) (ect : Nat) (et : String)
    (acc : Accessor) (bv : BufferView) (buf : BufferObj) (d : List Byte)
    (hacc : gltf.accessors.get? idx = some acc)
    (hct : acc.componentType = ect) (hty : acc.type = et)
    (hbv : gltf.bufferViews.get? acc.bufferView = some bv)
    (hbuf : gltf.buffers.get? bv.buffer = some buf)
    (hd : buf.data = some d) :
    dump_accessor_to_f gltf idx ect et
        = Except.ok ((d.drop bv.byteOffset).take bv.byteLength)
      ∧ ((d.drop bv.byteOffset).take bv.byteLength).length
          = min bv.byteLength (d.length - bv.byteOffset)
      ∧ (bv.byteOffset + bv.byteLength ≤ d.length →
          ((d.drop bv.byteOffset).take bv.byteLength).length = bv.byteLength) := by
  have hbv2 : gltf.bufferViews[acc.bufferView]? = some bv := by
    rw [← List.get?_eq_getElem?]
    exact hbv
  have hbuf2 : gltf.buffers[bv.buffer]? = some buf := by
    rw [← List.get?_eq_getElem?]
    exact hbuf
  refine ⟨?_, ?_, ?_⟩
  · unfold dump_accessor_to_f
    rw [hacc]
    simp [hct, hty, hbv2, hbuf2, hd]
  · simp [List.length_take, List.length_drop]
  · intro hle
    simp [List.length_take, List.length_drop]
    omega

/-- C5 witness: the amended statement evaluated on `exGood`, whose buffer is
long enough, so the full declared byteLength of 2 bytes is written. -/
theorem C5_witness :
    dump_accessor_to_f exGood 0 5126 "VEC3"
        = Except.ok ((([9, 8] : List Byte).drop 0).take 2)
      ∧ ((([9, 8] : List Byte).drop 0).take 2).length = min 2 (([9, 8] : List Byte).length - 0)
      ∧ (0 + 2 ≤ ([9, 8] : List Byte).length →
          ((([9, 8] : List Byte).drop 0).take 2).length = 2) :=
  C5_read_length exGood 0 5126 "VEC3" ⟨0, 0, 5126, "VEC3", 1⟩ ⟨0, 0, 2⟩
    ⟨"b.bin", some [9, 8]⟩ [9, 8] (by rfl) (by rfl) (by rfl) (by rfl) (by rfl) (by rfl)

/-- C9: the resolver computes the read range solely from the referenced
bufferView; the accessor-level byteOffset is never consulted, so two
accessors that agree on every field the script reads (bufferView,
componentType, type, count) but differ in their own byteOffset yield
byte-identical output. -/
theorem C9_accessor_offset_ignored (gltf : Gltf) (i1 i2 : Nat) (a1 a2 : Accessor)
    (ect : Nat) (et : String)
    (h1 : gltf.accessors.get? i1 = some a1)
    (h2 : gltf.accessors.get? i2 = some a2)
    (hbv : a1.bufferView = a2.bufferView)
    (hct : a1.componentType = a2.componentType)
    (hty : a1.type = a2.type)
    (hcnt : a1.count = a2.count) :
    dump_accessor_to_f gltf i1 ect et = dump_accessor_to_f gltf i2 ect et := by
  unfold dump_accessor_to_f
  rw [h1, h2]
  simp only [hbv, hct, hty]

/-- C9 witness: on `exG9`, accessors 0 and 1 differ only in their
accessor-level byteOffset (0 versus 12) and resolve to identical bytes. -/
theorem C9_witness :
    dump_accessor_to_f exG9 0 5126 "VEC3" = dump_accessor_to_f exG9 1 5126 "VEC3" :=
  C9_accessor_offset_ignored exG9 0 1 ⟨0, 0, 5126, "VEC3", 1⟩ ⟨0, 12, 5126, "VEC3", 1⟩
    5126 "VEC3" (by rfl) (by rfl) (by rfl) (by rfl) (by rfl) (by rfl)

/-- C3 counterexample: on `exG3` the single channel's path "spin" is
unsupported, so the run fails with `UnsupportedAnimationPath` — but
animations_0.bin IS left behind, partially written, containing exactly the
target node index (uint32 value 5), refuting the claim's "no partially
written animations_<i>.bin file ... is left behind". -/
theorem C3_counterexample :
    runMain exG3 =
      ([("positions.bin", [Chunk.raw [9, 8]]), ("normals.bin", [Chunk.raw [9, 8]]),
        ("indices.bin", [Chunk.raw [9, 8]]), ("vert_joints.bin", [Chunk.raw [9, 8]]),
        ("vert_weights.bin", [Chunk.raw [9, 8]]), ("nodes.bin", []),
        ("animations_0.bin", [Chunk.u32 5])],
        some PErr.unsupportedAnimationPath) := rfl

/-- C3 (amended): a channel whose target path is not one of
translation/rotation/scale makes the run fail with
`UnsupportedAnimationPath`, but only after the target node index has been
written, so the animations file for that channel is left behind holding
exactly that uint32. -/
theorem C3_bad_path_partial_file (gltf : Gltf) (anim : Animation) (ch : Channel)
    (h : animationTypeVal ch.target.path = none) :
    packChannel gltf anim ch
      = ([Chunk.u32 ch.target.node], some PErr.unsupportedAnimationPath) := by
  unfold packChannel
  rw [h]

/-- C3 witness: the amended statement evaluated on `exG3`'s channel. -/
theorem C3_witness :
    packChannel exG3 ⟨[⟨⟨5, "spin"⟩, 0⟩], [⟨0, 0⟩]⟩ ⟨⟨5, "spin"⟩, 0⟩
      = ([Chunk.u32 5], some PErr.unsupportedAnimationPath) :=
  C3_bad_path_partial_file exG3 ⟨[⟨⟨5, "spin"⟩, 0⟩], [⟨0, 0⟩]⟩ ⟨⟨5, "spin"⟩, 0⟩ (by rfl)

/-- C4: the skin stage fails (with the spec taxonomy's
`StructuralViolation`) when the document has no skins collection or an
empty one, and when two or more skins exist the stage's entire output is
determined by the first skin alone: replacing the skin list by just its
head leaves joint_info.bin byte-identical. -/
theorem C4_skin_stage (gltf : Gltf) :
    ((gltf.skins = none ∨ gltf.skins = some []) →
        (skinStage gltf).2 = some PErr.structuralViolation)
      ∧ (∀ (s : Skin) (rest : List Skin), gltf.skins = some (s :: rest) →
          skinStage gltf = skinStage { gltf with skins := some [s] }) := by
  constructor
  · rintro (h | h) <;> simp [skinStage, h]
  · intro s rest h
    have hdump : dump_accessor_to_f { gltf with skins := some [s] }
        s.inverseBindMatrices 5126 "MAT4"
          = dump_accessor_to_f gltf s.inverseBindMatrices 5126 "MAT4" := rfl
    simp [skinStage, h, hdump]

/-- C4 witness: both parts evaluated on concrete documents — `exGoodNoSkin`
has no skins collection, `exGoodTwoSkins` has two skins. -/
theorem C4_witness :
    (skinStage exGoodNoSkin).2 = some PErr.structuralViolation
      ∧ skinStage exGoodTwoSkins
          = skinStage { exGoodTwoSkins with skins := some [⟨[5, 7], 6⟩] } :=
  ⟨(C4_skin_stage exGoodNoSkin).1 (Or.inl rfl),
    (C4_skin_stage exGoodTwoSkins).2 ⟨[5, 7], 6⟩ [⟨[1], 6⟩] rfl⟩

/-- C6: every nodes.bin record matches the spec's description — defaulted
translation, rotation and scale as float32s, then the parent as a uint32 —
and on the 3-node tree root→A→B the builder produces parent fields
[sentinel, 0, 1] and the full record list has the documented fixed
layout. -/
theorem C6_nodes_bin_layout :
    (∀ (node : Node) (parent : Nat), nodeRecord node parent = specNodeRecord node parent)
      ∧ buildParents exTreeNodes = some [SENTINEL, 0, 1]
      ∧ nodesBinChunks exTreeNodes [SENTINEL, 0, 1] =
          [Chunk.f32 0, Chunk.f32 0, Chunk.f32 0,
            Chunk.f32 0, Chunk.f32 0, Chunk.f32 0, Chunk.f32 1,
            Chunk.f32 1, Chunk.f32 1, Chunk.f32 1, Chunk.u32 SENTINEL,
            Chunk.f32 0, Chunk.f32 0, Chunk.f32 0,
            Chunk.f32 0, Chunk.f32 0, Chunk.f32 0, Chunk.f32 1,
            Chunk.f32 1, Chunk.f32 1, Chunk.f32 1, Chunk.u32 0,
            Chunk.f32 0, Chunk.f32 0, Chunk.f32 0,
            Chunk.f32 0, Chunk.f32 0, Chunk.f32 0, Chunk.f32 1,
            Chunk.f32 1, Chunk.f32 1, Chunk.f32 1, Chunk.u32 1] := by
  refine ⟨fun node parent => ?_, by decide, by decide⟩
  simp [nodeRecord, specNodeRecord]

/-- C7: for the single animation, channel i (in source declaration order)
produces the file animations_<i>.bin, and a well-typed channel's file
contains exactly: the target node index, the path enum value, the keyframe
count taken from the time accessor's element count, the raw time-accessor
bytes (validated float32 SCALAR), and the raw value-accessor bytes
(validated float32 VEC4 for rotation, VEC3 otherwise). -/
theorem C7_animation_channel_layout (gltf : Gltf) (anim : Animation)
    (hone : gltf.animations = [anim]) (hok : (animStage gltf).2 = none) :
    (∀ i ch, anim.channels.get? i = some ch →
        (animStage gltf).1.get? i =
          some ("animations_" ++ toString i ++ ".bin", (packChannel gltf anim ch).1))
      ∧ (∀ (ch : Channel) (pv : Nat) (smp : Sampler) (tacc : Accessor) (tb vb : List Byte),
          animationTypeVal ch.target.path = some pv →
          anim.samplers.get? ch.sampler = some smp →
          gltf.accessors.get? smp.input = some tacc →
          dump_accessor_to_f gltf smp.input 5126 "SCALAR" = Except.ok tb →
          dump_accessor_to_f gltf smp.output 5126
              (if ch.target.path = "rotation" then "VEC4" else "VEC3") = Except.ok vb →
          packChannel gltf anim ch =
            ([Chunk.u32 ch.target.node, Chunk.u32 pv, Chunk.u32 tacc.count,
              Chunk.raw tb, Chunk.raw vb], none)) := by
  have hstage : animStage gltf = packChannelsFrom gltf anim 0 anim.channels := by
    unfold animStage
    rw [hone]
  constructor
  · intro i ch hch
    rw [hstage] at hok ⊢
    have hmain := packChannelsFrom_ok_get gltf anim anim.channels 0 hok i ch hch
    simpa using hmain
  · intro ch pv smp tacc tb vb hpv hs ht htb hvb
    have hs2 : anim.samplers[ch.sampler]? = some smp := by
      rw [← List.get?_eq_getElem?]
      exact hs
    have ht2 : gltf.accessors[smp.input]? = some tacc := by
      rw [← List.get?_eq_getElem?]
      exact ht
    simp [packChannel, hpv, hs2, ht2, htb, hvb]

/-- C7 witness: both parts evaluated on `exGood`, whose single channel
targets node 0 with path "translation" (enum 0) and whose time accessor
declares 2 keyframes. -/
theorem C7_witness :
    (animStage exGood).1.get? 0
        = some ("animations_" ++ toString 0 ++ ".bin",
            (packChannel exGood ⟨[⟨⟨0, "translation"⟩, 0⟩], [⟨4, 5⟩]⟩
              ⟨⟨0, "translation"⟩, 0⟩).1)
      ∧ packChannel exGood ⟨[⟨⟨0, "translation"⟩, 0⟩], [⟨4, 5⟩]⟩ ⟨⟨0, "translation"⟩, 0⟩
          = ([Chunk.u32 0, Chunk.u32 0, Chunk.u32 2, Chunk.raw [9, 8], Chunk.raw [9, 8]],
              none) :=
  ⟨(C7_animation_channel_layout exGood ⟨[⟨⟨0, "translation"⟩, 0⟩], [⟨4, 5⟩]⟩
      (by rfl) (by rfl)).1 0 ⟨⟨0, "translation"⟩, 0⟩ (by rfl),
    (C7_animation_channel_layout exGood ⟨[⟨⟨0, "translation"⟩, 0⟩], [⟨4, 5⟩]⟩
      (by rfl) (by rfl)).2 ⟨⟨0, "translation"⟩, 0⟩ 0 ⟨4, 5⟩ ⟨0, 0, 5126, "SCALAR", 2⟩
      [9, 8] [9, 8] (by rfl) (by rfl) (by rfl) (by rfl) (by rfl)⟩

/-- C8: after a successful hierarchy build, every parent entry is either the
all-ones sentinel or the index j of a node whose child list contains i —
proved for every node array, with or without duplicate child listings. -/
theorem C8_parent_invariant (nodes : List Node) (ps : List Nat)
    (hps : buildParents nodes = some ps) :
    ∀ i, i < nodes.length →
      ps.getD i 0 = SENTINEL ∨
        ∃ j nd, j < nodes.length ∧ nodes.get? j = some nd ∧
          ps.getD i 0 = j ∧ i ∈ nd.children.getD [] := by
  intro i hi
  have hg := applyWrites_getD (writeSeq nodes) _ ps hps i (by simpa using hi)
  have hrep : (List.replicate nodes.length SENTINEL).getD i 0 = SENTINEL := by
    simp [List.getD, List.get?_eq_getElem?, List.getElem?_replicate, hi]
  rw [hrep] at hg
  cases hlast : lastVal (writeSeq nodes) i with
  | none =>
    left
    rw [hlast] at hg
    simpa using hg
  | some j =>
    right
    rw [hlast] at hg
    simp only [Option.getD_some] at hg
    have hmem := lastVal_mem _ _ _ hlast
    obtain ⟨nd, _, hget, hc⟩ := writeSeqFrom_mem nodes 0 i j hmem
    rw [Nat.sub_zero] at hget
    have hj : j < nodes.length := by
      by_contra hle
      rw [List.get?_eq_none.mpr (by omega)] at hget
      exact absurd hget (by simp)
    exact ⟨j, nd, hj, hget, hg, hc⟩

/-- C8 witness: the invariant evaluated at node 1 of the 3-node tree, whose
parent entry is 0 and which node 0 indeed lists as a child. -/
theorem C8_witness :
    ([SENTINEL, 0, 1] : List Nat).getD 1 0 = SENTINEL ∨
      ∃ j nd, j < exTreeNodes.length ∧ exTreeNodes.get? j = some nd ∧
        ([SENTINEL, 0, 1] : List Nat).getD 1 0 = j ∧ 1 ∈ nd.children.getD [] :=
  C8_parent_invariant exTreeNodes [SENTINEL, 0, 1] (by decide) 1 (by decide)

/-- C10: the script performs no cleanup or rollback. When the mesh and node
stages complete, their files appear unchanged at the front of the run's
output whatever happens later: on an animation-stage failure the run's
files are exactly those plus the animation files written so far, and the
skin stage runs only if the animation stage succeeded; moreover, within the
channel loop, the files of already-completed channels are preserved
verbatim when a later channel fails. -/
theorem C10_no_cleanup (gltf : Gltf)
    (h1 : (meshStage gltf).2 = none) (h2 : (nodeStage gltf).2 = none) :
    ((runMain gltf).1
        = (meshStage gltf).1 ++ (nodeStage gltf).1 ++ (animStage gltf).1
            ++ (if (animStage gltf).2 = none then (skinStage gltf).1 else [])
      ∧ (runMain gltf).2
          = (if (animStage gltf).2 = none then (skinStage gltf).2
              else (animStage gltf).2))
      ∧ (∀ (anim : Animation) (pre post : List Channel) (k : Nat),
          (packChannelsFrom gltf anim k pre).2 = none →
          packChannelsFrom gltf anim k (pre ++ post) =
            ((packChannelsFrom gltf anim k pre).1
                ++ (packChannelsFrom gltf anim (k + pre.length) post).1,
              (packChannelsFrom gltf anim (k + pre.length) post).2)) := by
  constructor
  · cases ha : (animStage gltf).2 with
    | some e =>
      constructor
      · simp [runMain, seqStage, h1, h2, ha]
      · simp [runMain, seqStage, h1, h2, ha]
    | none =>
      constructor
      · simp [runMain, seqStage, h1, h2, ha]
      · simp [runMain, seqStage, h1, h2, ha]
  · intro anim pre post k hok
    exact packChannelsFrom_append gltf anim pre post k hok

/-- C10 witness: on `exGoodNoSkin` the run fails at the skin stage, and the
files of the completed mesh, node and animation stages are all still
present, in order. -/
theorem C10_witness :
    (runMain exGoodNoSkin).1
        = (meshStage exGoodNoSkin).1 ++ (nodeStage exGoodNoSkin).1
            ++ (animStage exGoodNoSkin).1
            ++ (if (animStage exGoodNoSkin).2 = none then (skinStage exGoodNoSkin).1 else [])
      ∧ (runMain exGoodNoSkin).2
          = (if (animStage exGoodNoSkin).2 = none then (skinStage exGoodNoSkin).2
              else (animStage exGoodNoSkin).2) :=
  (C10_no_cleanup exGoodNoSkin (by rfl) (by rfl)).1

end PackGltf
